import Mathlib

/-!
Verification development for the Tapo measurement tool
(src/tapo_measure_tool.py).  The measurement core, the coroutine
`measure_power`, is embedded as a fuel-indexed recursive function over
rational time.  Each loop iteration mirrors the source line by line:

* the `while loop.time() < end_time` guard;
* the device read inside `asyncio.wait_for(..., timeout=5)` wrapped in a
  bare `except:` which also swallows an `asyncio.CancelledError`
  delivered while the read is in flight;
* `current_power` keeps its previous value on a failed read, and is
  unbound (an `UnboundLocalError` is raised) when the very first read
  fails;
* the unclamped progress report `elapsed / duration * 100` and
  `int(duration - elapsed)`;
* the pacing wait `asyncio.sleep(measure_interval)` whose
  `CancelledError` handler sets `measure_interrupt` and breaks;
* the `if not measure_interrupt:` guard around the csv write, which
  opens the final path directly with `open(csv_name, "w")`.

Cancellation is modelled by the instant `cancelAt` at which
`task.cancel()` is issued, together with a `delivered` flag: asyncio
delivers the resulting `CancelledError` once, at the first suspension
point reached at or after that instant.
-/

namespace TapoMeasure

/-- Environment of one loop iteration: whether the device read inside
`asyncio.wait_for(device.get_energy_usage(), timeout=5)` succeeds, the
power value it reports on success, and the time the read (plus the
iteration overhead up to `timestamp = datetime.now()`) consumes. -/
structure TickEnv where
  readOk : Bool
  readPower : ℤ
  readLatency : ℚ
deriving DecidableEq

/-- One entry of the `measurements` list:
`{"timestamp": timestamp, "power": current_power}`. -/
structure Sample where
  timestamp : ℚ
  power : ℤ
deriving DecidableEq

/-- One progress update: `progress_bar["value"] = progress * 100` and
`remaining_time = int(measure_duration - elapsed_time)`. -/
structure Progress where
  percent : ℚ
  remainingSeconds : ℤ
deriving DecidableEq

/-- How the loop ended: the while guard failed (`completed`), the
pacing sleep raised `CancelledError` (`cancelled`), `current_power` was
referenced before assignment (`crashed`), or the fuel ran out
(`fuelOut`, an artifact of the fuel-indexed embedding). -/
inductive Outcome where
  | completed
  | cancelled
  | crashed
  | fuelOut
deriving DecidableEq

/-- Result of the measurement loop: the entry instants of the loop
iterations, the `measurements` list, the progress reports emitted, and
the way the loop ended. -/
structure LoopState where
  ticks : List ℚ
  samples : List Sample
  reports : List Progress
  outcome : Outcome
deriving DecidableEq

/-- Python `int()` on a real number truncates toward zero. -/
def pyInt (x : ℚ) : ℤ :=
  if 0 ≤ x then ⌊x⌋ else ⌈x⌉

/-- The progress report of one iteration, from
`progress = elapsed_time / measure_duration`,
`progress_bar["value"] = progress * 100`,
`remaining_time = int(measure_duration - elapsed_time)`. -/
def mkReport (duration elapsed : ℚ) : Progress :=
  ⟨elapsed / duration * 100, pyInt (duration - elapsed)⟩

/-- Duration of `asyncio.sleep(measure_interval)`: a negative delay
returns immediately. -/
def sleepDur (interval : ℚ) : ℚ :=
  max interval 0

/-- Whether the pending cancellation is delivered at a suspension point
occupying the time window from `t0` of length `d`: the `CancelledError`
is raised there when `task.cancel()` was issued at or before the await
started, or strictly inside the window, and has not been delivered at an
earlier suspension point. -/
def hitsAwait (cancelAt : Option ℚ) (delivered : Bool) (t0 d : ℚ) : Bool :=
  match cancelAt with
  | none => false
  | some c => !delivered && (decide (c ≤ t0) || decide (c < t0 + d))

/-- The value of `current_power` after the `try/except` around the
device read: the fresh reading on success; the previous value when the
bare `except:` caught a read failure — or the `CancelledError` of a
cancellation delivered while the read was in flight; `none` when
`current_power` has never been assigned. -/
def readResult (e : TickEnv) (cancelHit : Bool) (prev : Option ℤ) : Option ℤ :=
  if e.readOk && !cancelHit then some e.readPower else prev

/-- The measurement loop of `measure_power`, entered with the monotonic
clock at 0 and `end_time = measure_duration`.  Arguments after the fuel:
tick index, current time, whether the cancellation has already been
delivered, the value of `current_power` (`none` = not yet assigned), and
the accumulated tick instants, `measurements` and progress reports. -/
def measureLoop (interval duration : ℚ) (env : ℕ → TickEnv) (cancelAt : Option ℚ) :
    ℕ → ℕ → ℚ → Bool → Option ℤ → List ℚ → List Sample → List Progress → LoopState
  | 0, _, _, _, _, ticks, samples, reports =>
      ⟨ticks, samples, reports, Outcome.fuelOut⟩
  | fuel + 1, k, now, delivered, prev, ticks, samples, reports =>
      if now < duration then
        match readResult (env k) (hitsAwait cancelAt delivered now (env k).readLatency) prev with
        | none =>
            ⟨ticks ++ [now], samples, reports, Outcome.crashed⟩
        | some p =>
            if hitsAwait cancelAt
                (delivered || hitsAwait cancelAt delivered now (env k).readLatency)
                (now + (env k).readLatency) (sleepDur interval) then
              ⟨ticks ++ [now], samples ++ [⟨now + (env k).readLatency, p⟩],
                reports ++ [mkReport duration (now + (env k).readLatency)], Outcome.cancelled⟩
            else
              measureLoop interval duration env cancelAt fuel (k + 1)
                (now + (env k).readLatency + sleepDur interval)
                (delivered || hitsAwait cancelAt delivered now (env k).readLatency) (some p)
                (ticks ++ [now]) (samples ++ [⟨now + (env k).readLatency, p⟩])
                (reports ++ [mkReport duration (now + (env k).readLatency)])
      else
        ⟨ticks, samples, reports, Outcome.completed⟩

/-- One line of the csv file produced by `csv.DictWriter` with
`fieldnames=["timestamp", "power"]`. -/
inductive CsvRow where
  | header
  | data (timestamp : ℚ) (power : ℤ)
deriving DecidableEq

/-- The full file content: `writer.writeheader()` then
`writer.writerows(measurements)` in capture order. -/
def csvContent (samples : List Sample) : List CsvRow :=
  CsvRow.header :: samples.map (fun s => CsvRow.data s.timestamp s.power)

/-- The write `open(csv_name, "w")` followed by the header and the rows.
Opening with mode `w` creates/truncates the file at the final path at
once; the lines are then written sequentially, so an I/O failure after
`j` lines leaves exactly those `j` lines behind — there is no temporary
path, no rename and no delete-on-failure in the source.  Returns the
content left at the final path and whether the write succeeded. -/
def writeCsv (samples : List Sample) (failAfter : Option ℕ) :
    Option (List CsvRow) × Bool :=
  match failAfter with
  | none => (some (csvContent samples), true)
  | some j => (some ((csvContent samples).take j), false)

/-- Outcome of a whole session at a fresh (collision-free) output path:
the loop result, the file content left at that path, and whether the
success dialog was reached. -/
structure SessionResult where
  loopResult : LoopState
  file : Option (List CsvRow)
  persisted : Bool
deriving DecidableEq

/-- A whole run of `measure_power` after a successful device connection:
run the loop from time 0, then `if not measure_interrupt:` write the
csv.  A crash propagates before reaching the write; a cancelled loop
skips it. -/
def runSession (interval duration : ℚ) (env : ℕ → TickEnv) (cancelAt : Option ℚ)
    (fuel : ℕ) (failAfter : Option ℕ) : SessionResult :=
  let r := measureLoop interval duration env cancelAt fuel 0 0 false none [] [] []
  if r.outcome = Outcome.completed then
    let w := writeCsv r.samples failAfter
    ⟨r, w.1, w.2⟩
  else
    ⟨r, none, false⟩

/-- The configuration read from the UI variables at the top of
`measure_power_async`. -/
structure StartConfig where
  ip : String
  filename : String
  interval : ℚ
  duration : ℤ
deriving DecidableEq

/-- The observable I/O side effects of the start path, in order:
`save_config` writes config.json, `os.makedirs` touches the results
folder, `get_unique_filename` probes the output path, and the Device
Port connection happens only inside the launched task. -/
inductive StartEffect where
  | configWrite
  | makeDirs
  | outputPathProbe
  | deviceConnect
deriving DecidableEq

/-- What the start call returns to the user: the error dialog
`messagebox.showerror`, or a launched measurement task. -/
inductive StartResult where
  | errorDialog
  | launched (taskId : ℕ)
deriving DecidableEq

/-- State visible after `measure_power_async` returns control: the I/O
effects performed before launching (or refusing), the visible result,
and the value of the global `measurement_task`. -/
structure StartOutcome where
  effects : List StartEffect
  result : StartResult
  task : Option ℕ
deriving DecidableEq

/-- The start path of `measure_power_async`: it first saves the
configuration (`save_config(tapo_config)`), then checks
`if not ip or not filename:` — nothing else is validated — and on
success creates the results folder, resolves a unique csv path and
creates the measurement task, overwriting the global
`measurement_task` unconditionally. -/
def measurePowerAsync (cfg : StartConfig) (curTask : Option ℕ) (newId : ℕ) :
    StartOutcome :=
  if cfg.ip = "" || cfg.filename = "" then
    ⟨[StartEffect.configWrite], StartResult.errorDialog, curTask⟩
  else
    ⟨[StartEffect.configWrite, StartEffect.makeDirs, StartEffect.outputPathProbe],
      StartResult.launched newId, some newId⟩

/-- Spec-side schedule, for comparison with the code: the spec, in
section 4.2, defines the deadline of tick `k` as
start + tickIndex × interval, a pure function of the start instant, the
tick index and the interval. -/
def nextDeadline (start : ℚ) (tickIndex : ℕ) (interval : ℚ) : ℚ :=
  start + tickIndex * interval

/-- The same tick environment except that tick `k0`'s device read is forced
to fail (all other ticks unchanged): used to compare a cancellation
delivered during an in-flight read with a plain read failure. -/
def failAt (env : ℕ → TickEnv) (k0 : ℕ) : ℕ → TickEnv :=
  fun j => if j = k0 then ⟨false, (env j).readPower, (env j).readLatency⟩ else env j

/-- Every tick reads successfully with power 100 and no latency. -/
def envAllOk : ℕ → TickEnv := fun _ => ⟨true, 100, 0⟩

/-- Every tick's device read fails (for the first-read-failure run). -/
def envFailFirst : ℕ → TickEnv := fun _ => ⟨false, 0, 0⟩

/-- Every tick reads successfully after a latency of one second. -/
def envLat1 : ℕ → TickEnv := fun _ => ⟨true, 100, 1⟩

/-- Every tick reads successfully after half a second. -/
def envLatHalf : ℕ → TickEnv := fun _ => ⟨true, 100, 1 / 2⟩

/-- The device read succeeds only after three seconds (a slow tick that
overshoots a short session). -/
def envLate : ℕ → TickEnv := fun _ => ⟨true, 100, 3⟩

theorem measureLoop_zero {interval duration : ℚ} {env : ℕ → TickEnv} {cancelAt : Option ℚ}
    {k : ℕ} {now : ℚ} {delivered : Bool} {prev : Option ℤ}
    {ticks : List ℚ} {samples : List Sample} {reports : List Progress} :
    measureLoop interval duration env cancelAt 0 k now delivered prev ticks samples reports =
      ⟨ticks, samples, reports, Outcome.fuelOut⟩ := rfl

theorem measureLoop_done {interval duration : ℚ} {env : ℕ → TickEnv} {cancelAt : Option ℚ}
    {n k : ℕ} {now : ℚ} {delivered : Bool} {prev : Option ℤ}
    {ticks : List ℚ} {samples : List Sample} {reports : List Progress}
    (h : ¬ now < duration) :
    measureLoop interval duration env cancelAt (n + 1) k now delivered prev ticks samples reports =
      ⟨ticks, samples, reports, Outcome.completed⟩ := by
  simp [measureLoop, if_neg h]

theorem measureLoop_crash {interval duration : ℚ} {env : ℕ → TickEnv} {cancelAt : Option ℚ}
    {n k : ℕ} {now : ℚ} {delivered : Bool} {prev : Option ℤ}
    {ticks : List ℚ} {samples : List Sample} {reports : List Progress}
    (h : now < duration)
    (hp : readResult (env k) (hitsAwait cancelAt delivered now (env k).readLatency) prev = none) :
    measureLoop interval duration env cancelAt (n + 1) k now delivered prev ticks samples reports =
      ⟨ticks ++ [now], samples, reports, Outcome.crashed⟩ := by
  simp only [measureLoop, if_pos h, hp]

theorem measureLoop_cancel {interval duration : ℚ} {env : ℕ → TickEnv} {cancelAt : Option ℚ}
    {n k : ℕ} {now : ℚ} {delivered : Bool} {prev : Option ℤ} {p : ℤ}
    {ticks : List ℚ} {samples : List Sample} {reports : List Progress}
    (h : now < duration)
    (hp : readResult (env k) (hitsAwait cancelAt delivered now (env k).readLatency) prev = some p)
    (hs : hitsAwait cancelAt (delivered || hitsAwait cancelAt delivered now (env k).readLatency)
        (now + (env k).readLatency) (sleepDur interval) = true) :
    measureLoop interval duration env cancelAt (n + 1) k now delivered prev ticks samples reports =
      ⟨ticks ++ [now], samples ++ [⟨now + (env k).readLatency, p⟩],
        reports ++ [mkReport duration (now + (env k).readLatency)], Outcome.cancelled⟩ := by
  simp only [measureLoop, if_pos h, hp, hs, if_true]

theorem measureLoop_go {interval duration : ℚ} {env : ℕ → TickEnv} {cancelAt : Option ℚ}
    {n k : ℕ} {now : ℚ} {delivered : Bool} {prev : Option ℤ} {p : ℤ}
    {ticks : List ℚ} {samples : List Sample} {reports : List Progress}
    (h : now < duration)
    (hp : readResult (env k) (hitsAwait cancelAt delivered now (env k).readLatency) prev = some p)
    (hs : hitsAwait cancelAt (delivered || hitsAwait cancelAt delivered now (env k).readLatency)
        (now + (env k).readLatency) (sleepDur interval) = false) :
    measureLoop interval duration env cancelAt (n + 1) k now delivered prev ticks samples reports =
      measureLoop interval duration env cancelAt n (k + 1)
        (now + (env k).readLatency + sleepDur interval)
        (delivered || hitsAwait cancelAt delivered now (env k).readLatency) (some p)
        (ticks ++ [now]) (samples ++ [⟨now + (env k).readLatency, p⟩])
        (reports ++ [mkReport duration (now + (env k).readLatency)]) := by
  simp only [measureLoop, if_pos h, hp, hs, Bool.false_eq_true, if_false]

theorem measureLoop_acc (interval duration : ℚ) (env : ℕ → TickEnv) (cancelAt : Option ℚ) :
    ∀ (fuel k : ℕ) (now : ℚ) (delivered : Bool) (prev : Option ℤ)
      (ticks : List ℚ) (samples : List Sample) (reports : List Progress),
      measureLoop interval duration env cancelAt fuel k now delivered prev ticks samples reports =
        ⟨ticks ++ (measureLoop interval duration env cancelAt fuel k now delivered prev [] [] []).ticks,
         samples ++ (measureLoop interval duration env cancelAt fuel k now delivered prev [] [] []).samples,
         reports ++ (measureLoop interval duration env cancelAt fuel k now delivered prev [] [] []).reports,
         (measureLoop interval duration env cancelAt fuel k now delivered prev [] [] []).outcome⟩ := by
  intro fuel
  induction fuel with
  | zero =>
      intro k now delivered prev ticks samples reports
      simp [measureLoop_zero]
  | succ n ih =>
      intro k now delivered prev ticks samples reports
      by_cases h : now < duration
      · cases hp : readResult (env k) (hitsAwait cancelAt delivered now (env k).readLatency) prev with
        | none => rw [measureLoop_crash h hp, measureLoop_crash h hp]; simp
        | some p =>
            cases hs : hitsAwait cancelAt
                (delivered || hitsAwait cancelAt delivered now (env k).readLatency)
                (now + (env k).readLatency) (sleepDur interval) with
            | true => rw [measureLoop_cancel h hp hs, measureLoop_cancel h hp hs]; simp
            | false =>
                rw [measureLoop_go h hp hs, measureLoop_go h hp hs]
                simp only [List.nil_append]
                rw [ih]
                rw [ih (k+1) (now + (env k).readLatency + sleepDur interval)
                    (delivered || hitsAwait cancelAt delivered now (env k).readLatency) (some p)
                    [now] [⟨now + (env k).readLatency, p⟩]
                    [mkReport duration (now + (env k).readLatency)]]
                simp
      · rw [measureLoop_done h, measureLoop_done h]; simp

theorem measureLoop_ticks_head (interval duration : ℚ) (env : ℕ → TickEnv) (cancelAt : Option ℚ)
    (fuel k : ℕ) (now : ℚ) (delivered : Bool) (prev : Option ℤ) :
    (measureLoop interval duration env cancelAt fuel k now delivered prev [] [] []).ticks = [] ∨
    (measureLoop interval duration env cancelAt fuel k now delivered prev [] [] []).ticks.getD 0 0 = now := by
  cases fuel with
  | zero => left; rw [measureLoop_zero]
  | succ n =>
      by_cases h : now < duration
      · cases hp : readResult (env k) (hitsAwait cancelAt delivered now (env k).readLatency) prev with
        | none => right; rw [measureLoop_crash h hp]; simp
        | some p =>
            cases hs : hitsAwait cancelAt
                (delivered || hitsAwait cancelAt delivered now (env k).readLatency)
                (now + (env k).readLatency) (sleepDur interval) with
            | true => right; rw [measureLoop_cancel h hp hs]; simp
            | false =>
                right
                rw [measureLoop_go h hp hs, measureLoop_acc]
                simp
      · left; rw [measureLoop_done h]


theorem hitsAwait_delivered (cancelAt : Option ℚ) (t0 d : ℚ) :
    hitsAwait cancelAt true t0 d = false := by
  cases cancelAt <;> simp [hitsAwait]

theorem measureLoop_delivered_irrelevant (interval duration : ℚ) (env : ℕ → TickEnv) (c : ℚ) :
    ∀ (fuel k : ℕ) (now : ℚ) (prev : Option ℤ)
      (ticks : List ℚ) (samples : List Sample) (reports : List Progress),
      measureLoop interval duration env (some c) fuel k now true prev ticks samples reports =
      measureLoop interval duration env none fuel k now true prev ticks samples reports := by
  intro fuel
  induction fuel with
  | zero => intro k now prev ticks samples reports; rw [measureLoop_zero, measureLoop_zero]
  | succ n ih =>
      intro k now prev ticks samples reports
      by_cases h : now < duration
      · cases hp : readResult (env k) false prev with
        | none =>
            rw [measureLoop_crash h (by rw [hitsAwait_delivered]; exact hp),
                measureLoop_crash h (by rw [hitsAwait_delivered]; exact hp)]
        | some p =>
            rw [measureLoop_go h (by rw [hitsAwait_delivered]; exact hp)
                  (by rw [hitsAwait_delivered, Bool.or_false, hitsAwait_delivered]),
                measureLoop_go h (by rw [hitsAwait_delivered]; exact hp)
                  (by rw [hitsAwait_delivered, Bool.or_false, hitsAwait_delivered])]
            simp only [hitsAwait_delivered, Bool.or_false]
            exact ih (k+1) _ _ _ _ _
      · rw [measureLoop_done h, measureLoop_done h]

theorem measureLoop_env_congr (interval duration : ℚ) (cancelAt : Option ℚ) :
    ∀ (fuel : ℕ) (env env' : ℕ → TickEnv) (k : ℕ) (now : ℚ) (delivered : Bool) (prev : Option ℤ)
      (ticks : List ℚ) (samples : List Sample) (reports : List Progress),
      (∀ j, k ≤ j → env j = env' j) →
      measureLoop interval duration env cancelAt fuel k now delivered prev ticks samples reports =
      measureLoop interval duration env' cancelAt fuel k now delivered prev ticks samples reports := by
  intro fuel
  induction fuel with
  | zero =>
      intro env env' k now delivered prev ticks samples reports hagree
      rw [measureLoop_zero, measureLoop_zero]
  | succ n ih =>
      intro env env' k now delivered prev ticks samples reports hagree
      have hk : env k = env' k := hagree k le_rfl
      by_cases h : now < duration
      · cases hp : readResult (env' k) (hitsAwait cancelAt delivered now (env' k).readLatency) prev with
        | none =>
            rw [measureLoop_crash h (by rw [hk]; exact hp), measureLoop_crash h hp]
        | some p =>
            cases hs : hitsAwait cancelAt
                (delivered || hitsAwait cancelAt delivered now (env' k).readLatency)
                (now + (env' k).readLatency) (sleepDur interval) with
            | true =>
                rw [measureLoop_cancel h (by rw [hk]; exact hp) (by rw [hk]; exact hs),
                    measureLoop_cancel h hp hs]
                rw [hk]
            | false =>
                rw [measureLoop_go h (by rw [hk]; exact hp) (by rw [hk]; exact hs),
                    measureLoop_go h hp hs]
                rw [hk]
                exact ih env env' (k+1) _ _ _ _ _ _ (fun j hj => hagree j (by omega))
      · rw [measureLoop_done h, measureLoop_done h]

theorem measureLoop_reports_correspond (interval duration : ℚ) (env : ℕ → TickEnv) (cancelAt : Option ℚ) :
    ∀ (fuel k : ℕ) (now : ℚ) (delivered : Bool) (prev : Option ℤ)
      (ticks : List ℚ) (samples : List Sample) (reports : List Progress),
      reports = samples.map (fun s => mkReport duration s.timestamp) →
      (measureLoop interval duration env cancelAt fuel k now delivered prev ticks samples reports).reports =
        (measureLoop interval duration env cancelAt fuel k now delivered prev ticks samples reports).samples.map
          (fun s => mkReport duration s.timestamp) := by
  intro fuel
  induction fuel with
  | zero =>
      intro k now delivered prev ticks samples reports hcorr
      rw [measureLoop_zero]
      exact hcorr
  | succ n ih =>
      intro k now delivered prev ticks samples reports hcorr
      by_cases h : now < duration
      · cases hp : readResult (env k) (hitsAwait cancelAt delivered now (env k).readLatency) prev with
        | none => rw [measureLoop_crash h hp]; exact hcorr
        | some p =>
            cases hs : hitsAwait cancelAt
                (delivered || hitsAwait cancelAt delivered now (env k).readLatency)
                (now + (env k).readLatency) (sleepDur interval) with
            | true => rw [measureLoop_cancel h hp hs]; simp [hcorr]
            | false =>
                rw [measureLoop_go h hp hs]
                exact ih (k+1) _ _ _ _ _ _ (by simp [hcorr])
      · rw [measureLoop_done h]; exact hcorr

theorem measureLoop_ticks_step (interval duration : ℚ) (env : ℕ → TickEnv) (cancelAt : Option ℚ) :
    ∀ (fuel k : ℕ) (now : ℚ) (delivered : Bool) (prev : Option ℤ) (j : ℕ),
      j + 1 < (measureLoop interval duration env cancelAt fuel k now delivered prev [] [] []).ticks.length →
      (measureLoop interval duration env cancelAt fuel k now delivered prev [] [] []).ticks.getD (j+1) 0 =
        (measureLoop interval duration env cancelAt fuel k now delivered prev [] [] []).ticks.getD j 0
          + (env (k+j)).readLatency + sleepDur interval := by
  intro fuel
  induction fuel with
  | zero =>
      intro k now delivered prev j hj
      rw [measureLoop_zero] at hj
      simp at hj
  | succ n ih =>
      intro k now delivered prev j hj
      by_cases h : now < duration
      · cases hp : readResult (env k) (hitsAwait cancelAt delivered now (env k).readLatency) prev with
        | none =>
            rw [measureLoop_crash h hp] at hj
            simp at hj
        | some p =>
            cases hs : hitsAwait cancelAt
                (delivered || hitsAwait cancelAt delivered now (env k).readLatency)
                (now + (env k).readLatency) (sleepDur interval) with
            | true =>
                rw [measureLoop_cancel h hp hs] at hj
                simp at hj
            | false =>
                rw [measureLoop_go h hp hs] at hj ⊢
                simp only [List.nil_append] at hj ⊢
                rw [measureLoop_acc] at hj ⊢
                simp only [List.length_append, List.length_cons, List.length_nil,
                  List.singleton_append] at hj ⊢
                cases j with
                | zero =>
                    rcases measureLoop_ticks_head interval duration env cancelAt n (k+1)
                        (now + (env k).readLatency + sleepDur interval)
                        (delivered || hitsAwait cancelAt delivered now (env k).readLatency)
                        (some p) with hnil | hhead
                    · rw [hnil] at hj; simp at hj
                    · simpa using hhead
                | succ m =>
                    have hm := ih (k+1) (now + (env k).readLatency + sleepDur interval)
                        (delivered || hitsAwait cancelAt delivered now (env k).readLatency)
                        (some p) m (by omega)
                    simp only [List.getD_cons_succ]
                    rw [hm]
                    have : k + 1 + m = k + (m + 1) := by omega
                    rw [this]
      · rw [measureLoop_done h] at hj
        simp at hj

theorem runSession_loopResult (interval duration : ℚ) (env : ℕ → TickEnv) (cancelAt : Option ℚ)
    (fuel : ℕ) (failAfter : Option ℕ) :
    (runSession interval duration env cancelAt fuel failAfter).loopResult =
      measureLoop interval duration env cancelAt fuel 0 0 false none [] [] [] := by
  simp only [runSession]
  split <;> rfl

theorem runSession_skip_persist (interval duration : ℚ) (env : ℕ → TickEnv) (cancelAt : Option ℚ)
    (fuel : ℕ) (failAfter : Option ℕ)
    (h : (measureLoop interval duration env cancelAt fuel 0 0 false none [] [] []).outcome ≠ Outcome.completed) :
    runSession interval duration env cancelAt fuel failAfter =
      ⟨measureLoop interval duration env cancelAt fuel 0 0 false none [] [] [], none, false⟩ := by
  simp only [runSession]
  rw [if_neg h]

theorem runSession_persist (interval duration : ℚ) (env : ℕ → TickEnv) (cancelAt : Option ℚ)
    (fuel : ℕ) (failAfter : Option ℕ)
    (h : (measureLoop interval duration env cancelAt fuel 0 0 false none [] [] []).outcome = Outcome.completed) :
    runSession interval duration env cancelAt fuel failAfter =
      ⟨measureLoop interval duration env cancelAt fuel 0 0 false none [] [] [],
        (writeCsv (measureLoop interval duration env cancelAt fuel 0 0 false none [] [] []).samples failAfter).1,
        (writeCsv (measureLoop interval duration env cancelAt fuel 0 0 false none [] [] []).samples failAfter).2⟩ := by
  simp only [runSession]
  rw [if_pos h]

/-- Claim C1: a session whose loop observes the cancellation signal ends in the
cancelled terminal state, and on that path no output file is created or
modified — the persistence step is skipped and the in-memory samples are
discarded. -/
theorem cancelled_session_writes_no_file (interval duration : ℚ) (env : ℕ → TickEnv)
    (cancelAt : Option ℚ) (fuel : ℕ) (failAfter : Option ℕ)
    (h : (runSession interval duration env cancelAt fuel failAfter).loopResult.outcome = Outcome.cancelled) :
    (runSession interval duration env cancelAt fuel failAfter).file = none ∧
    (runSession interval duration env cancelAt fuel failAfter).persisted = false := by
  rw [runSession_loopResult] at h
  rw [runSession_skip_persist interval duration env cancelAt fuel failAfter (by rw [h]; simp)]
  exact ⟨rfl, rfl⟩

/-- Witness for C1: with interval 1, duration 10 and `task.cancel()` issued at
time 1/2 (inside the first pacing wait), the loop ends cancelled and no file
exists at the output path. -/
theorem cancelled_session_writes_no_file_witness :
    (runSession 1 10 envAllOk (some (1/2)) 5 none).loopResult.outcome = Outcome.cancelled ∧
    (runSession 1 10 envAllOk (some (1/2)) 5 none).file = none ∧
    (runSession 1 10 envAllOk (some (1/2)) 5 none).persisted = false :=
  ⟨by with_unfolding_all decide,
   cancelled_session_writes_no_file 1 10 envAllOk (some (1/2)) 5 none (by with_unfolding_all decide)⟩

/-- Claim C2 (code bug): when the very first device read fails, `current_power`
is referenced before assignment, so the session aborts with an
`UnboundLocalError`: the outcome is a crash with zero samples and no file,
whereas the identically timed all-successful session records ten samples. -/
theorem first_read_failure_aborts_session :
    (runSession 1 10 envFailFirst none 20 none).loopResult.outcome = Outcome.crashed ∧
    (runSession 1 10 envFailFirst none 20 none).loopResult.samples = [] ∧
    (runSession 1 10 envFailFirst none 20 none).file = none ∧
    (runSession 1 10 envAllOk none 20 none).loopResult.outcome = Outcome.completed ∧
    (runSession 1 10 envAllOk none 20 none).loopResult.samples.length = 10 := by
  with_unfolding_all decide

/-- Counterexample to C3: a completed one-sample session whose csv write fails
after the header line leaves the header-only truncated file at the final
path — the file is neither absent nor fully written. -/
theorem partial_write_leaves_truncated_file :
    (runSession 1 1 envAllOk none 5 (some 1)).loopResult.outcome = Outcome.completed ∧
    (runSession 1 1 envAllOk none 5 (some 1)).file = some [CsvRow.header] ∧
    (runSession 1 1 envAllOk none 5 (some 1)).file ≠ none ∧
    (runSession 1 1 envAllOk none 5 (some 1)).file ≠
      some (csvContent (runSession 1 1 envAllOk none 5 (some 1)).loopResult.samples) := by
  with_unfolding_all decide

/-- Claim C3 as amended: when the write raises no error the file at the final
path is either absent or fully written; but the code writes directly to the
final path, so a write failing after j lines leaves exactly those j lines
behind (no temp-path rename, no delete-on-failure). -/
theorem persist_direct_write_behavior (interval duration : ℚ) (env : ℕ → TickEnv)
    (cancelAt : Option ℚ) (fuel : ℕ) :
    ((runSession interval duration env cancelAt fuel none).file = none ∨
      (runSession interval duration env cancelAt fuel none).file =
        some (csvContent (runSession interval duration env cancelAt fuel none).loopResult.samples)) ∧
    (∀ j : ℕ,
      (runSession interval duration env cancelAt fuel (some j)).loopResult.outcome = Outcome.completed →
      (runSession interval duration env cancelAt fuel (some j)).file =
        some ((csvContent (runSession interval duration env cancelAt fuel (some j)).loopResult.samples).take j) ∧
      (runSession interval duration env cancelAt fuel (some j)).persisted = false) := by
  constructor
  · by_cases h : (measureLoop interval duration env cancelAt fuel 0 0 false none [] [] []).outcome
        = Outcome.completed
    · right
      rw [runSession_persist interval duration env cancelAt fuel none h]
      simp [writeCsv]
    · left
      rw [runSession_skip_persist interval duration env cancelAt fuel none h]
  · intro j hcomp
    rw [runSession_loopResult] at hcomp
    rw [runSession_persist interval duration env cancelAt fuel (some j) hcomp]
    simp [writeCsv]

/-- Witness for C3 as amended: the one-sample session with a write failure
after one line carries the truncated header-only content. -/
theorem persist_direct_write_behavior_witness :
    (runSession 1 1 envAllOk none 5 (some 1)).file =
      some ((csvContent (runSession 1 1 envAllOk none 5 (some 1)).loopResult.samples).take 1) :=
  ((persist_direct_write_behavior 1 1 envAllOk none 5).2 1 (by with_unfolding_all decide)).1

/-- Counterexample to C4: starting while the session with handle 0 is active is
not rejected — a new task with handle 1 is launched and the stored handle is
replaced. -/
theorem start_while_active_not_rejected :
    (measurePowerAsync ⟨"10.0.0.1", "out", 1, 10⟩ (some 0) 1).result = StartResult.launched 1 ∧
    (measurePowerAsync ⟨"10.0.0.1", "out", 1, 10⟩ (some 0) 1).task = some 1 ∧
    (measurePowerAsync ⟨"10.0.0.1", "out", 1, 10⟩ (some 0) 1).task ≠ some 0 := by
  decide

/-- Claim C4 as amended: the start path performs no active-session check at
all — with a non-empty address and filename it always launches a new
measurement task and overwrites the stored task handle, whatever session is
currently active; mutual exclusion is not enforced here. -/
theorem start_ignores_active_session (cfg : StartConfig) (cur : Option ℕ) (newId : ℕ)
    (h1 : cfg.ip ≠ "") (h2 : cfg.filename ≠ "") :
    (measurePowerAsync cfg cur newId).result = StartResult.launched newId ∧
    (measurePowerAsync cfg cur newId).task = some newId := by
  simp [measurePowerAsync, h1, h2]

/-- Witness for C4 as amended at a concrete valid configuration. -/
theorem start_ignores_active_session_witness :
    (measurePowerAsync ⟨"10.0.0.2", "out", 1, 10⟩ (some 3) 4).result = StartResult.launched 4 ∧
    (measurePowerAsync ⟨"10.0.0.2", "out", 1, 10⟩ (some 3) 4).task = some 4 :=
  start_ignores_active_session ⟨"10.0.0.2", "out", 1, 10⟩ (some 3) 4 (by decide) (by decide)

/-- Counterexample to C7: a configuration with an empty address is rejected
only after the settings file has been written (`save_config` precedes the
check), and a non-positive interval and duration are not rejected at all. -/
theorem config_saved_before_validation :
    (measurePowerAsync ⟨"", "out", 1, 10⟩ none 0).result = StartResult.errorDialog ∧
    (measurePowerAsync ⟨"", "out", 1, 10⟩ none 0).effects = [StartEffect.configWrite] ∧
    StartEffect.configWrite ∈ (measurePowerAsync ⟨"", "out", 1, 10⟩ none 0).effects ∧
    (measurePowerAsync ⟨"10.0.0.1", "out", -1, -5⟩ none 0).result = StartResult.launched 0 := by
  decide

/-- Claim C7 as amended: the start path validates only that the address and
filename are non-empty; when that check fails it shows the error dialog and
leaves the task handle unchanged, after having written the settings file but
without ever touching the Device Port. -/
theorem validation_scope_and_order (cfg : StartConfig) (cur : Option ℕ) (newId : ℕ)
    (h : cfg.ip = "" ∨ cfg.filename = "") :
    (measurePowerAsync cfg cur newId).result = StartResult.errorDialog ∧
    (measurePowerAsync cfg cur newId).effects = [StartEffect.configWrite] ∧
    (measurePowerAsync cfg cur newId).task = cur ∧
    StartEffect.deviceConnect ∉ (measurePowerAsync cfg cur newId).effects := by
  rcases h with h | h <;> simp [measurePowerAsync, h]

/-- Witness for C7 as amended at a concrete empty-address configuration. -/
theorem validation_scope_and_order_witness :
    (measurePowerAsync ⟨"", "out2", 2, 20⟩ (some 7) 8).result = StartResult.errorDialog ∧
    (measurePowerAsync ⟨"", "out2", 2, 20⟩ (some 7) 8).effects = [StartEffect.configWrite] ∧
    (measurePowerAsync ⟨"", "out2", 2, 20⟩ (some 7) 8).task = some 7 ∧
    StartEffect.deviceConnect ∉ (measurePowerAsync ⟨"", "out2", 2, 20⟩ (some 7) 8).effects :=
  validation_scope_and_order ⟨"", "out2", 2, 20⟩ (some 7) 8 (Or.inl rfl)

theorem measureLoop_none_delivered (interval duration : ℚ) (env : ℕ → TickEnv) :
    ∀ (fuel k : ℕ) (now : ℚ) (d1 d2 : Bool) (prev : Option ℤ)
      (ticks : List ℚ) (samples : List Sample) (reports : List Progress),
      measureLoop interval duration env none fuel k now d1 prev ticks samples reports =
      measureLoop interval duration env none fuel k now d2 prev ticks samples reports := by
  intro fuel
  induction fuel with
  | zero => intro k now d1 d2 prev ticks samples reports; rw [measureLoop_zero, measureLoop_zero]
  | succ n ih =>
      intro k now d1 d2 prev ticks samples reports
      have hfalse : ∀ (d : Bool) (t0 w : ℚ), hitsAwait none d t0 w = false := by
        intro d t0 w; rfl
      by_cases h : now < duration
      · cases hp : readResult (env k) false prev with
        | none =>
            rw [measureLoop_crash h (by rw [hfalse]; exact hp),
                measureLoop_crash h (by rw [hfalse]; exact hp)]
        | some p =>
            rw [measureLoop_go h (by rw [hfalse]; exact hp) (hfalse _ _ _),
                measureLoop_go h (by rw [hfalse]; exact hp) (hfalse _ _ _)]
            exact ih (k+1) _ _ _ _ _ _ _
      · rw [measureLoop_done h, measureLoop_done h]

/-- Counterexample to C5: with half-second reads, interval 1 and duration 2,
`task.cancel()` issued at time 7/4 delivers its `CancelledError` while the
second tick's device read is in flight; the bare `except:` swallows it, the
session completes and even writes the output file — the signal is silently
discarded, not observed once the read returns. -/
theorem cancel_during_read_swallowed :
    hitsAwait (some (7/4)) false (3/2) (envLatHalf 1).readLatency = true ∧
    (runSession 1 2 envLatHalf (some (7/4)) 5 none).loopResult.outcome = Outcome.completed ∧
    (runSession 1 2 envLatHalf (some (7/4)) 5 none).loopResult.outcome ≠ Outcome.cancelled ∧
    (runSession 1 2 envLatHalf (some (7/4)) 5 none).file =
      some [CsvRow.header, CsvRow.data (1/2) 100, CsvRow.data 2 100] := by
  with_unfolding_all decide

/-- Claim C5 as amended: cancellation is observed only at the pacing wait.
First conjunct: a pending cancellation that does not hit the read window but
does hit the pacing wait ends the iteration in the cancelled outcome at once.
Second conjunct: a cancellation delivered while the device read is in flight
is caught by the blanket read handler and silently consumed — the whole run
is identical to a run with no cancellation in which that tick's read simply
failed. -/
theorem cancellation_observed_only_at_sleep :
    (∀ (interval duration : ℚ) (env : ℕ → TickEnv) (c : ℚ) (n k : ℕ) (now : ℚ)
        (delivered : Bool) (prev : Option ℤ)
        (ticks : List ℚ) (samples : List Sample) (reports : List Progress),
      now < duration →
      hitsAwait (some c) delivered now (env k).readLatency = false →
      hitsAwait (some c) delivered (now + (env k).readLatency) (sleepDur interval) = true →
      ((env k).readOk = true ∨ prev.isSome = true) →
      (measureLoop interval duration env (some c) (n+1) k now delivered prev
          ticks samples reports).outcome = Outcome.cancelled) ∧
    (∀ (interval duration : ℚ) (env : ℕ → TickEnv) (c : ℚ) (n k : ℕ) (now : ℚ)
        (prev : Option ℤ) (ticks : List ℚ) (samples : List Sample) (reports : List Progress),
      now < duration →
      hitsAwait (some c) false now (env k).readLatency = true →
      measureLoop interval duration env (some c) (n+1) k now false prev ticks samples reports =
        measureLoop interval duration (failAt env k) none (n+1) k now false prev
          ticks samples reports) := by
  constructor
  · intro interval duration env c n k now delivered prev ticks samples reports hlt h1 h2 h4
    have hs : hitsAwait (some c) (delivered || hitsAwait (some c) delivered now (env k).readLatency)
        (now + (env k).readLatency) (sleepDur interval) = true := by
      rw [h1, Bool.or_false]; exact h2
    cases hro : (env k).readOk with
    | true =>
        have hp : readResult (env k) (hitsAwait (some c) delivered now (env k).readLatency) none
            = some ((env k).readPower) := by
          simp [readResult, h1, hro]
        have hp2 : readResult (env k) (hitsAwait (some c) delivered now (env k).readLatency) prev
            = some ((env k).readPower) := by
          simp [readResult, h1, hro]
        rw [measureLoop_cancel hlt hp2 hs]
    | false =>
        rcases h4 with h4 | h4
        · rw [hro] at h4; cases h4
        · rcases Option.isSome_iff_exists.mp h4 with ⟨q, hq⟩
          have hp : readResult (env k) (hitsAwait (some c) delivered now (env k).readLatency) prev
              = some q := by
            simp [readResult, h1, hro, hq]
          rw [measureLoop_cancel hlt hp hs]
  · intro interval duration env c n k now prev ticks samples reports hlt h2
    have hlat : (failAt env k k).readLatency = (env k).readLatency := by simp [failAt]
    have hpL : readResult (env k) (hitsAwait (some c) false now (env k).readLatency) prev = prev := by
      simp [readResult, h2]
    have hpR : readResult (failAt env k k) (hitsAwait none false now (failAt env k k).readLatency) prev
        = prev := by
      simp [readResult, failAt, hitsAwait]
    cases prev with
    | none =>
        rw [measureLoop_crash hlt hpL, measureLoop_crash hlt hpR]
    | some q =>
        have hsL : hitsAwait (some c) (false || hitsAwait (some c) false now (env k).readLatency)
            (now + (env k).readLatency) (sleepDur interval) = false := by
          rw [h2, Bool.or_true, hitsAwait_delivered]
        have hsR : hitsAwait none (false || hitsAwait none false now (failAt env k k).readLatency)
            (now + (failAt env k k).readLatency) (sleepDur interval) = false := rfl
        rw [measureLoop_go hlt hpL hsL, measureLoop_go hlt hpR hsR]
        rw [h2, Bool.or_true, hlat]
        have hnone : hitsAwait none false now (env k).readLatency = false := rfl
        rw [hnone, Bool.or_false]
        rw [measureLoop_delivered_irrelevant]
        rw [measureLoop_none_delivered interval duration env n (k+1)
            (now + (env k).readLatency + sleepDur interval) true false]
        exact measureLoop_env_congr interval duration none n env (failAt env k) (k+1)
          (now + (env k).readLatency + sleepDur interval) false (some q) _ _ _
          (fun j hj => by
            have hne : j ≠ k := by omega
            simp [failAt, hne])

/-- Witness for C5 as amended: the first conjunct applied to a cancellation at
time 1/2 inside the first pacing wait; the second applied to a cancellation at
time 1/4 inside the first half-second read. -/
theorem cancellation_observed_only_at_sleep_witness :
    (measureLoop 1 10 envAllOk (some (1/2)) 4 0 0 false none [] [] []).outcome = Outcome.cancelled ∧
    measureLoop 1 2 envLatHalf (some (1/4)) 5 0 0 false none [] [] [] =
      measureLoop 1 2 (failAt envLatHalf 0) none 5 0 0 false none [] [] [] :=
  ⟨cancellation_observed_only_at_sleep.1 1 10 envAllOk (1/2) 3 0 0 false none [] [] []
      (by norm_num) (by with_unfolding_all decide) (by with_unfolding_all decide) (Or.inl rfl),
   cancellation_observed_only_at_sleep.2 1 2 envLatHalf (1/4) 4 0 0 none [] [] []
      (by norm_num) (by with_unfolding_all decide)⟩

/-- Counterexample to C6: with one-second read latency, interval 1 and
duration 4, the loop iterations start at instants 0 and 2, whereas the
spec-side schedule start + k × interval gives 0 and 1 — the second tick's
instant is not a pure function of start, index and interval. -/
theorem tick_schedule_not_absolute :
    (runSession 1 4 envLat1 none 10 none).loopResult.ticks = [0, 2] ∧
    [nextDeadline 0 0 1, nextDeadline 0 1 1] = [0, 1] ∧
    (runSession 1 4 envLat1 none 10 none).loopResult.ticks.getD 1 0 ≠ nextDeadline 0 1 1 := by
  with_unfolding_all decide

/-- Claim C6 as amended: the code schedules each pacing wait as
"now + interval" after the sample: consecutive loop-iteration start
instants differ by that iteration's read latency plus the sleep duration,
so per-tick polling latency accumulates as drift over the session. -/
theorem tick_schedule_recurrence (interval duration : ℚ) (env : ℕ → TickEnv)
    (cancelAt : Option ℚ) (fuel k : ℕ) (now : ℚ) (delivered : Bool) (prev : Option ℤ) (j : ℕ)
    (hj : j + 1 < (measureLoop interval duration env cancelAt fuel k now delivered prev [] [] []).ticks.length) :
    (measureLoop interval duration env cancelAt fuel k now delivered prev [] [] []).ticks.getD (j+1) 0 =
      (measureLoop interval duration env cancelAt fuel k now delivered prev [] [] []).ticks.getD j 0
        + (env (k+j)).readLatency + sleepDur interval :=
  measureLoop_ticks_step interval duration env cancelAt fuel k now delivered prev j hj

/-- Witness for C6 as amended: in the drifting run the second iteration
starts one read latency plus one interval after the first. -/
theorem tick_schedule_recurrence_witness :
    (measureLoop 1 4 envLat1 none 10 0 0 false none [] [] []).ticks.getD 1 0 =
      (measureLoop 1 4 envLat1 none 10 0 0 false none [] [] []).ticks.getD 0 0
        + (envLat1 0).readLatency + sleepDur 1 :=
  tick_schedule_recurrence 1 4 envLat1 none 10 0 0 false none 0 (by with_unfolding_all decide)

/-- Counterexample to C8: a valid session with duration 1 shorter than the
interval 2 records one sample, not zero, and its completed output holds a
data row besides the header. -/
theorem short_duration_one_sample :
    (runSession 2 1 envAllOk none 5 none).loopResult.outcome = Outcome.completed ∧
    (runSession 2 1 envAllOk none 5 none).loopResult.samples.length = 1 ∧
    (runSession 2 1 envAllOk none 5 none).file = some [CsvRow.header, CsvRow.data 0 100] ∧
    (runSession 2 1 envAllOk none 5 none).file ≠ some [CsvRow.header] := by
  with_unfolding_all decide

/-- Claim C8 as amended: the loop samples before its first pacing wait, so a
session whose positive duration does not exceed the first read latency plus
one sleep records exactly one sample and, on natural completion, writes the
header plus that single data row. -/
theorem short_duration_session_samples_once (interval duration : ℚ) (env : ℕ → TickEnv) (fuel : ℕ)
    (hd : 0 < duration)
    (hshort : duration ≤ (env 0).readLatency + sleepDur interval)
    (hread : (env 0).readOk = true) :
    (runSession interval duration env none (fuel + 2) none).loopResult.outcome = Outcome.completed ∧
    (runSession interval duration env none (fuel + 2) none).loopResult.samples =
      [⟨(env 0).readLatency, (env 0).readPower⟩] ∧
    (runSession interval duration env none (fuel + 2) none).file =
      some [CsvRow.header, CsvRow.data (env 0).readLatency (env 0).readPower] := by
  have hp : readResult (env 0) (hitsAwait none false 0 (env 0).readLatency) (none : Option ℤ)
      = some ((env 0).readPower) := by
    simp [readResult, hitsAwait, hread]
  have hs : hitsAwait none (false || hitsAwait none false 0 (env 0).readLatency)
      ((0:ℚ) + (env 0).readLatency) (sleepDur interval) = false := rfl
  have hstop : ¬ ((0:ℚ) + (env 0).readLatency + sleepDur interval < duration) := by
    rw [zero_add]
    exact not_lt.mpr hshort
  have hm : measureLoop interval duration env none (fuel + 2) 0 0 false none [] [] [] =
      ⟨[0], [⟨(0:ℚ) + (env 0).readLatency, (env 0).readPower⟩],
        [mkReport duration ((0:ℚ) + (env 0).readLatency)], Outcome.completed⟩ := by
    rw [measureLoop_go hd hp hs, measureLoop_done hstop]
    simp
  have hcomp : (measureLoop interval duration env none (fuel + 2) 0 0 false none [] [] []).outcome
      = Outcome.completed := by rw [hm]
  rw [runSession_persist interval duration env none (fuel + 2) none hcomp, hm]
  refine ⟨rfl, by simp, ?_⟩
  simp [writeCsv, csvContent]

/-- Witness for C8 as amended at interval 2, duration 1 with instant reads. -/
theorem short_duration_session_samples_once_witness :
    (runSession 2 1 envAllOk none 2 none).loopResult.outcome = Outcome.completed ∧
    (runSession 2 1 envAllOk none 2 none).loopResult.samples =
      [⟨(envAllOk 0).readLatency, (envAllOk 0).readPower⟩] ∧
    (runSession 2 1 envAllOk none 2 none).file =
      some [CsvRow.header, CsvRow.data (envAllOk 0).readLatency (envAllOk 0).readPower] :=
  short_duration_session_samples_once 2 1 envAllOk 0 (by norm_num)
    (by with_unfolding_all decide) rfl

/-- Counterexample to C9: a session whose only read takes three seconds while
the duration is one second reports a progress of 300 percent and minus two
remaining seconds — neither clamped. -/
theorem progress_exceeds_bounds :
    (runSession 1 1 envLate none 5 none).loopResult.reports = [⟨300, -2⟩] ∧
    ¬ ((300:ℚ) ≤ 100) ∧ ((-2:ℤ) < 0) := by
  with_unfolding_all decide

/-- Claim C9 as amended: every emitted report is the raw, unclamped formula
elapsed / duration × 100 and int(duration − elapsed) evaluated at the
sample's timestamp; the reported values lie in [0,100] and are non-negative
exactly on ticks whose elapsed time has not overrun the duration. -/
theorem progress_formula_and_bounds :
    (∀ (interval duration : ℚ) (env : ℕ → TickEnv) (cancelAt : Option ℚ)
        (fuel k : ℕ) (now : ℚ) (delivered : Bool) (prev : Option ℤ)
        (ticks : List ℚ) (samples : List Sample) (reports : List Progress),
      reports = samples.map (fun s => mkReport duration s.timestamp) →
      (measureLoop interval duration env cancelAt fuel k now delivered prev ticks samples reports).reports =
        (measureLoop interval duration env cancelAt fuel k now delivered prev ticks samples reports).samples.map
          (fun s => mkReport duration s.timestamp)) ∧
    (∀ d e : ℚ, 0 < d → 0 ≤ e → e ≤ d →
      0 ≤ (mkReport d e).percent ∧ (mkReport d e).percent ≤ 100 ∧
      0 ≤ (mkReport d e).remainingSeconds) := by
  constructor
  · intro interval duration env cancelAt fuel k now delivered prev ticks samples reports hcorr
    exact measureLoop_reports_correspond interval duration env cancelAt fuel k now delivered
      prev ticks samples reports hcorr
  · intro d e hd he hed
    refine ⟨?_, ?_, ?_⟩
    · have : 0 ≤ e / d := div_nonneg he (le_of_lt hd)
      simpa [mkReport] using mul_nonneg this (by norm_num : (0:ℚ) ≤ 100)
    · have h1 : e / d ≤ 1 := (div_le_one hd).mpr hed
      have := mul_le_mul_of_nonneg_right h1 (by norm_num : (0:ℚ) ≤ 100)
      simpa [mkReport] using this
    · have hde : (0:ℚ) ≤ d - e := by linarith
      simp only [mkReport, pyInt, if_pos hde]
      exact Int.floor_nonneg.mpr hde

/-- Witness for C9 as amended: the correspondence applied to the overrunning
session, and the bounds at duration 2, elapsed 1. -/
theorem progress_formula_and_bounds_witness :
    ((measureLoop 1 1 envLate none 5 0 0 false none [] [] []).reports =
      (measureLoop 1 1 envLate none 5 0 0 false none [] [] []).samples.map
        (fun s => mkReport 1 s.timestamp)) ∧
    (0 ≤ (mkReport 2 1).percent ∧ (mkReport 2 1).percent ≤ 100 ∧
      0 ≤ (mkReport 2 1).remainingSeconds) :=
  ⟨progress_formula_and_bounds.1 1 1 envLate none 5 0 0 false none [] [] [] (by simp),
   progress_formula_and_bounds.2 2 1 (by norm_num) (by norm_num) (by norm_num)⟩

theorem measureLoop_start_samples (interval duration : ℚ) (env : ℕ → TickEnv) (cancelAt : Option ℚ)
    (fuel : ℕ) (hd : 0 < duration)
    (hout : (measureLoop interval duration env cancelAt fuel 0 0 false none [] [] []).outcome = Outcome.completed ∨
            (measureLoop interval duration env cancelAt fuel 0 0 false none [] [] []).outcome = Outcome.cancelled) :
    1 ≤ (measureLoop interval duration env cancelAt fuel 0 0 false none [] [] []).samples.length := by
  cases fuel with
  | zero =>
      rw [measureLoop_zero] at hout
      rcases hout with h | h <;> simp at h
  | succ n =>
      cases hp : readResult (env 0) (hitsAwait cancelAt false 0 (env 0).readLatency) none with
      | none =>
          rw [measureLoop_crash hd hp] at hout
          rcases hout with h | h <;> simp at h
      | some p =>
          cases hs : hitsAwait cancelAt (false || hitsAwait cancelAt false 0 (env 0).readLatency)
              ((0:ℚ) + (env 0).readLatency) (sleepDur interval) with
          | true => rw [measureLoop_cancel hd hp hs]; simp
          | false =>
              rw [measureLoop_go hd hp hs, measureLoop_acc]
              simp

/-- Claim C10: with a positive duration, the loop records a sample before any
pacing wait, so a session that ends completed or cancelled holds at least one
sample, and a naturally completed session (with the write raising no error)
leaves a file with the header row plus at least one data row. -/
theorem completed_session_nonempty (interval duration : ℚ) (env : ℕ → TickEnv)
    (cancelAt : Option ℚ) (fuel : ℕ) (hd : 0 < duration) :
    ((runSession interval duration env cancelAt fuel none).loopResult.outcome = Outcome.completed ∨
      (runSession interval duration env cancelAt fuel none).loopResult.outcome = Outcome.cancelled →
      1 ≤ (runSession interval duration env cancelAt fuel none).loopResult.samples.length) ∧
    ((runSession interval duration env cancelAt fuel none).loopResult.outcome = Outcome.completed →
      (runSession interval duration env cancelAt fuel none).file =
        some (csvContent (runSession interval duration env cancelAt fuel none).loopResult.samples) ∧
      2 ≤ (csvContent (runSession interval duration env cancelAt fuel none).loopResult.samples).length) := by
  constructor
  · intro hout
    rw [runSession_loopResult] at hout ⊢
    exact measureLoop_start_samples interval duration env cancelAt fuel hd hout
  · intro hcomp
    rw [runSession_loopResult] at hcomp
    have hlen := measureLoop_start_samples interval duration env cancelAt fuel hd (Or.inl hcomp)
    rw [runSession_persist interval duration env cancelAt fuel none hcomp]
    constructor
    · simp [writeCsv]
    · simp only [writeCsv, csvContent, List.length_cons, List.length_map]
      omega

/-- Witness for C10 at a two-sample completed session. -/
theorem completed_session_nonempty_witness :
    1 ≤ (runSession 1 2 envAllOk none 5 none).loopResult.samples.length ∧
    (runSession 1 2 envAllOk none 5 none).file =
      some (csvContent (runSession 1 2 envAllOk none 5 none).loopResult.samples) ∧
    2 ≤ (csvContent (runSession 1 2 envAllOk none 5 none).loopResult.samples).length :=
  ⟨(completed_session_nonempty 1 2 envAllOk none 5 (by norm_num)).1
      (Or.inl (by with_unfolding_all decide)),
   (completed_session_nonempty 1 2 envAllOk none 5 (by norm_num)).2
      (by with_unfolding_all decide)⟩

end TapoMeasure
